import Mathlib

/-!
Shallow embedding of the NSI (Nodal Scene Interface) C headers
`nsi.h` and `nsi_procedural.h`, together with theorems settling the
boundary-contract claims about them.

C machine types are modelled as follows: `int` is `Int`, `unsigned` and
`size_t` are `Nat`, `const char*` strings are `String`, and raw data or
function-pointer targets that the header leaves opaque are addresses
(`Nat`).  The header targets platforms where `sizeof(float) = 4`,
`sizeof(int) = 4` and `sizeof(double) = 8`; the one genuinely
platform-dependent width, `sizeof(char*) = sizeof(void*)`, is kept as an
explicit parameter `ptrSize`.
-/

namespace NSI

/-- C `typedef int NSIContext_t`. -/
def NSIContext_t := Int

/-- C `typedef const char* NSIHandle_t`, modelled as a string. -/
def NSIHandle_t := String

/-- A C `void*` value, modelled as an address. -/
def VoidPtr := Nat

/-- C `#define NSI_BAD_CONTEXT ((NSIContext_t)0)`. -/
def NSI_BAD_CONTEXT : Int := 0

/-- C `#define NSI_SCENE_ROOT ".root"`. -/
def NSI_SCENE_ROOT : String := ".root"

/-- C `#define NSI_SCENE_GLOBAL ".global"`. -/
def NSI_SCENE_GLOBAL : String := ".global"

/-- C `#define NSI_ALL_NODES ".all"`. -/
def NSI_ALL_NODES : String := ".all"

/-- C `#define NSI_ALL_ATTRIBUTES ".all"`. -/
def NSI_ALL_ATTRIBUTES : String := ".all"

/-- C `#define NSI_VERSION 2`. -/
def NSI_VERSION : Nat := 2

/-- The constructors of C `enum NSIType_t` (type values for
`NSIParam_t.type`). -/
inductive NSIType_t
  | NSITypeInvalid
  | NSITypeFloat
  | NSITypeDouble
  | NSITypeInteger
  | NSITypeString
  | NSITypeColor
  | NSITypePoint
  | NSITypeVector
  | NSITypeNormal
  | NSITypeMatrix
  | NSITypeDoubleMatrix
  | NSITypePointer
deriving DecidableEq

/-- The numeric value each `NSIType_t` enumerator carries in the header.
`NSITypeDouble = NSITypeFloat | 0x10` and
`NSITypeDoubleMatrix = NSITypeMatrix | 0x10` are kept as the bitwise-or
expressions of the source. -/
def NSIType_t.val : NSIType_t → Nat
  | .NSITypeInvalid => 0
  | .NSITypeFloat => 1
  | .NSITypeDouble => 1 ||| 0x10
  | .NSITypeInteger => 2
  | .NSITypeString => 3
  | .NSITypeColor => 4
  | .NSITypePoint => 5
  | .NSITypeVector => 6
  | .NSITypeNormal => 7
  | .NSITypeMatrix => 8
  | .NSITypeDoubleMatrix => 8 ||| 0x10
  | .NSITypePointer => 9

/-- The numeric values of all `NSIType_t` enumerators. -/
def nsiTypeTags : List Nat :=
  [NSIType_t.NSITypeInvalid.val, NSIType_t.NSITypeFloat.val,
   NSIType_t.NSITypeDouble.val, NSIType_t.NSITypeInteger.val,
   NSIType_t.NSITypeString.val, NSIType_t.NSITypeColor.val,
   NSIType_t.NSITypePoint.val, NSIType_t.NSITypeVector.val,
   NSIType_t.NSITypeNormal.val, NSIType_t.NSITypeMatrix.val,
   NSIType_t.NSITypeDoubleMatrix.val, NSIType_t.NSITypePointer.val]

/-- The `static const unsigned char sizes[]` table inside `NSITypeSizeOf`,
laid out exactly as in the source.  `sizeof(float) = 4`,
`sizeof(int) = 4`, `sizeof(double) = 8`;
`sizeof(char*) = sizeof(void*) = ptrSize`.  Every entry fits in an
`unsigned char` for any realistic `ptrSize`, so no C truncation is
modelled. -/
def sizes (ptrSize : Nat) : List Nat :=
  [0, 4, 4, ptrSize,
   3*4, 3*4, 3*4, 3*4,
   16*4, ptrSize, 0, 0,
   0, 0, 0, 0,
   0, 8, 0, 0,
   0, 0, 0, 0,
   16*8]

/-- C `size_t NSITypeSizeOf(unsigned t)`:
`return t <= 24 ? sizes[t] : 0;`.  The in-bounds access `sizes[t]` is
modelled with `List.getD`; the theorem for the bounds claim shows the
default is never taken when `t <= 24`. -/
def NSITypeSizeOf (ptrSize : Nat) (t : Nat) : Nat :=
  if t ≤ 24 then (sizes ptrSize).getD t 0 else 0

/-- C `enum` flag `NSIParamIsArray = 1` (flag values for
`NSIParam_t.flags`). -/
def NSIParamIsArray : Nat := 1

/-- C `enum` flag `NSIParamPerFace = 2`. -/
def NSIParamPerFace : Nat := 2

/-- C `enum` flag `NSIParamPerVertex = 4`. -/
def NSIParamPerVertex : Nat := 4

/-- C `enum` flag `NSIParamInterpolateLinear = 8`. -/
def NSIParamInterpolateLinear : Nat := 8

/-- C `struct NSIParam_t` (structure for optional parameters).  The
`flags` field is a C `int` holding a bitwise-or of the flag enumerators
above; since all flag values are small non-negative bits it is modelled
as `Nat`. -/
structure NSIParam_t where
  name : String
  data : VoidPtr
  type : Int
  arraylength : Int
  count : Nat
  flags : Nat

/-- The `flags` word obtained by bitwise-or of a chosen subset of the
four `NSIParam_t.flags` enumerators, as a caller of the header would
assemble it. -/
def paramFlagsOf (isArray perFace perVertex interpLinear : Bool) : Nat :=
  (if isArray then NSIParamIsArray else 0) |||
  (if perFace then NSIParamPerFace else 0) |||
  (if perVertex then NSIParamPerVertex else 0) |||
  (if interpLinear then NSIParamInterpolateLinear else 0)

/-- C `enum NSIStoppingStatus`, value `NSIRenderCompleted = 0`. -/
def NSIRenderCompleted : Nat := 0

/-- C `enum NSIStoppingStatus`, value `NSIRenderAborted = 1`. -/
def NSIRenderAborted : Nat := 1

/-- C `enum NSIStoppingStatus`, value `NSIRenderSynchronized = 2`. -/
def NSIRenderSynchronized : Nat := 2

/-- C `enum NSIStoppingStatus`, value `NSIRenderRestarted = 3`. -/
def NSIRenderRestarted : Nat := 3

/-- C `enum NSIErrorLevel`, value `NSIErrMessage = 0`. -/
def NSIErrMessage : Nat := 0

/-- C `enum NSIErrorLevel`, value `NSIErrInfo = 1`. -/
def NSIErrInfo : Nat := 1

/-- C `enum NSIErrorLevel`, value `NSIErrWarning = 2`. -/
def NSIErrWarning : Nat := 2

/-- C `enum NSIErrorLevel`, value `NSIErrError = 3`. -/
def NSIErrError : Nat := 3

/-- C `typedef void (*NSIErrorHandler_t)(void *userdata, int level,
int code, const char *message)`. -/
def NSIErrorHandler_t := VoidPtr → Int → Int → String → Unit

/-- C `typedef void (*NSIRenderStopped_t)(void *userdata,
NSIContext_t ctx, int status)`. -/
def NSIRenderStopped_t := VoidPtr → NSIContext_t → Int → Unit

/-- A C `struct NSIProcedural_t*` as it appears inside the descriptor
itself: an opaque address. -/
def NSIProceduralPtr := Nat

/-- C `typedef void (*NSIReport_t)(NSIContext_t ctx, int level,
const char* message)`. -/
def NSIReport_t := NSIContext_t → Int → String → Unit

/-- C `NSIProceduralUnload_t`: `void (NSIContext_t ctx, NSIReport_t
report, struct NSIProcedural_t* proc)`. -/
def NSIProceduralUnload_t := NSIContext_t → NSIReport_t → NSIProceduralPtr → Unit

/-- C `NSIProceduralExecute_t`: `void (NSIContext_t ctx, NSIReport_t
report, struct NSIProcedural_t* proc, int nparams, const struct
NSIParam_t* params)`; the parameter array is modelled as a list. -/
def NSIProceduralExecute_t :=
  NSIContext_t → NSIReport_t → NSIProceduralPtr → Int → List NSIParam_t → Unit

/-- C `struct NSIProcedural_t` (descriptor of procedural): expected NSI
version plus the two entry points. -/
structure NSIProcedural_t where
  nsi_version : Nat
  unload : NSIProceduralUnload_t
  execute : NSIProceduralExecute_t

/-- C macro `NSI_PROCEDURAL_INIT(proc, unload_fct, execute_fct)`: assigns
`proc.nsi_version = NSI_VERSION`, `proc.unload = unload_fct`,
`proc.execute = execute_fct`. -/
def NSI_PROCEDURAL_INIT (proc : NSIProcedural_t)
    (unload_fct : NSIProceduralUnload_t)
    (execute_fct : NSIProceduralExecute_t) : NSIProcedural_t :=
  { proc with
    nsi_version := NSI_VERSION
    unload := unload_fct
    execute := execute_fct }

/-- C1: for every recognized type tag, `NSITypeSizeOf` returns the byte
width of the boundary table: float and integer map to 4, string to the
pointer width, color, point, vector and normal to 12, matrix to 64,
double matrix to 128, double to 8, and pointer to the pointer width. -/
theorem nsiTypeSizeOf_boundary_table (ptrSize : Nat) :
    NSITypeSizeOf ptrSize NSIType_t.NSITypeFloat.val = 4 ∧
    NSITypeSizeOf ptrSize NSIType_t.NSITypeInteger.val = 4 ∧
    NSITypeSizeOf ptrSize NSIType_t.NSITypeString.val = ptrSize ∧
    NSITypeSizeOf ptrSize NSIType_t.NSITypeColor.val = 12 ∧
    NSITypeSizeOf ptrSize NSIType_t.NSITypePoint.val = 12 ∧
    NSITypeSizeOf ptrSize NSIType_t.NSITypeVector.val = 12 ∧
    NSITypeSizeOf ptrSize NSIType_t.NSITypeNormal.val = 12 ∧
    NSITypeSizeOf ptrSize NSIType_t.NSITypeMatrix.val = 64 ∧
    NSITypeSizeOf ptrSize NSIType_t.NSITypeDoubleMatrix.val = 128 ∧
    NSITypeSizeOf ptrSize NSIType_t.NSITypeDouble.val = 8 ∧
    NSITypeSizeOf ptrSize NSIType_t.NSITypePointer.val = ptrSize :=
  ⟨rfl, rfl, rfl, rfl, rfl, rfl, rfl, rfl, rfl, rfl, rfl⟩

/-- C2: the `NSIType_t` enumerators carry the explicit numeric values
Invalid = 0, Float = 1, Integer = 2, String = 3, Color = 4, Point = 5,
Vector = 6, Normal = 7, Matrix = 8, Pointer = 9, and each
double-precision variant equals its base tag bitwise-or 0x10:
Double = 1 | 0x10 = 17, DoubleMatrix = 8 | 0x10 = 24. -/
theorem nsiType_tag_values :
    NSIType_t.NSITypeInvalid.val = 0 ∧
    NSIType_t.NSITypeFloat.val = 1 ∧
    NSIType_t.NSITypeInteger.val = 2 ∧
    NSIType_t.NSITypeString.val = 3 ∧
    NSIType_t.NSITypeColor.val = 4 ∧
    NSIType_t.NSITypePoint.val = 5 ∧
    NSIType_t.NSITypeVector.val = 6 ∧
    NSIType_t.NSITypeNormal.val = 7 ∧
    NSIType_t.NSITypeMatrix.val = 8 ∧
    NSIType_t.NSITypePointer.val = 9 ∧
    NSIType_t.NSITypeDouble.val = NSIType_t.NSITypeFloat.val ||| 0x10 ∧
    NSIType_t.NSITypeDouble.val = 17 ∧
    NSIType_t.NSITypeDoubleMatrix.val = NSIType_t.NSITypeMatrix.val ||| 0x10 ∧
    NSIType_t.NSITypeDoubleMatrix.val = 24 := by
  decide

/-- C3 counterexample: the claim says `NSITypeSizeOf(NSITypePointer) = 0`,
but on a 64-bit platform (pointer width 8) the table maps the pointer
tag to the pointer width 8, not 0. -/
theorem nsiTypeSizeOf_pointer_not_zero :
    ¬ NSITypeSizeOf 8 NSIType_t.NSITypePointer.val = 0 := by
  decide

/-- C3 amended: the size table maps the invalid tag to byte width 0 and
the pointer tag to the platform pointer width (not 0). -/
theorem nsiTypeSizeOf_invalid_zero_pointer_width (ptrSize : Nat) :
    NSITypeSizeOf ptrSize NSIType_t.NSITypeInvalid.val = 0 ∧
    NSITypeSizeOf ptrSize NSIType_t.NSITypePointer.val = ptrSize :=
  ⟨rfl, rfl⟩

/-- C5: the reserved handle constants serialize to exactly the spec's
strings, and the all-nodes and all-attributes wildcards are the same
string ".all". -/
theorem nsi_reserved_handle_constants :
    NSI_SCENE_ROOT = ".root" ∧
    NSI_SCENE_GLOBAL = ".global" ∧
    NSI_ALL_NODES = ".all" ∧
    NSI_ALL_ATTRIBUTES = ".all" ∧
    NSI_ALL_NODES = NSI_ALL_ATTRIBUTES :=
  ⟨rfl, rfl, rfl, rfl, rfl⟩

/-- C6: the error callback type takes (userdata, level, code, message)
with levels Message = 0, Info = 1, Warning = 2, Error = 3, and the
stopped callback type takes (userdata, context, status) with statuses
Completed = 0, Aborted = 1, Synchronized = 2, Restarted = 3. -/
theorem nsi_callback_boundary_types :
    NSIErrMessage = 0 ∧ NSIErrInfo = 1 ∧
    NSIErrWarning = 2 ∧ NSIErrError = 3 ∧
    NSIRenderCompleted = 0 ∧ NSIRenderAborted = 1 ∧
    NSIRenderSynchronized = 2 ∧ NSIRenderRestarted = 3 ∧
    NSIErrorHandler_t = (VoidPtr → Int → Int → String → Unit) ∧
    NSIRenderStopped_t = (VoidPtr → NSIContext_t → Int → Unit) :=
  ⟨rfl, rfl, rfl, rfl, rfl, rfl, rfl, rfl, rfl, rfl⟩

/-- C7: the procedural descriptor bundles an expected NSI version with
the unload and execute entry points; `NSI_PROCEDURAL_INIT` sets the
descriptor's `nsi_version` field to `NSI_VERSION`, which equals 2, and
installs exactly the two given entry points. -/
theorem nsi_procedural_init_version (proc : NSIProcedural_t)
    (unload_fct : NSIProceduralUnload_t)
    (execute_fct : NSIProceduralExecute_t) :
    NSI_VERSION = 2 ∧
    (NSI_PROCEDURAL_INIT proc unload_fct execute_fct).nsi_version = NSI_VERSION ∧
    (NSI_PROCEDURAL_INIT proc unload_fct execute_fct).unload = unload_fct ∧
    (NSI_PROCEDURAL_INIT proc unload_fct execute_fct).execute = execute_fct :=
  ⟨rfl, rfl, rfl, rfl⟩

/-- C4: on any platform with a nonzero pointer width,
`NSITypeSizeOf t = 0` holds exactly when `t` is not a recognized
`NSIType_t` tag other than `NSITypeInvalid`: the recognized tags
1-9, 17, 24 yield positive sizes and every other unsigned value
yields 0. -/
theorem nsiTypeSizeOf_zero_iff_unrecognized (ptrSize t : Nat)
    (h : 0 < ptrSize) :
    NSITypeSizeOf ptrSize t = 0 ↔ ¬ (t ∈ nsiTypeTags ∧ t ≠ 0) := by
  by_cases ht : t ≤ 24
  · interval_cases t <;>
      simp [NSITypeSizeOf, sizes, nsiTypeTags, NSIType_t.val] <;>
      omega
  · simp [NSITypeSizeOf, ht, nsiTypeTags, NSIType_t.val]
    omega

/-- C4 witness: at pointer width 8 the unrecognized gap value 10 maps
to size 0 and is indeed not a recognized nonzero tag. -/
theorem nsiTypeSizeOf_zero_iff_unrecognized_witness :
    (0 : Nat) < 8 ∧
    (NSITypeSizeOf 8 10 = 0 ↔ ¬ ((10 : Nat) ∈ nsiTypeTags ∧ (10 : Nat) ≠ 0)) :=
  ⟨by decide, nsiTypeSizeOf_zero_iff_unrecognized 8 10 (by decide)⟩

/-- C8: `NSITypeSizeOf` is total — the static size table has 25 entries,
the guard `t <= 24` keeps every table access in bounds, and every
argument greater than 24 returns 0 instead of reading past the end. -/
theorem nsiTypeSizeOf_total (ptrSize t : Nat) :
    (sizes ptrSize).length = 25 ∧
    (t ≤ 24 → t < (sizes ptrSize).length) ∧
    (24 < t → NSITypeSizeOf ptrSize t = 0) := by
  refine ⟨rfl, fun h => ?_, fun h => ?_⟩
  · have hl : (sizes ptrSize).length = 25 := rfl
    omega
  · simp [NSITypeSizeOf, Nat.not_le.mpr h]

/-- C8 witness: at pointer width 8, the guarded index 17 is in bounds
and the out-of-range argument 100 returns 0. -/
theorem nsiTypeSizeOf_total_witness :
    (17 : Nat) < (sizes 8).length ∧ NSITypeSizeOf 8 100 = 0 :=
  ⟨(nsiTypeSizeOf_total 8 17).2.1 (by decide),
   (nsiTypeSizeOf_total 8 100).2.2 (by decide)⟩

/-- C9: the four parameter flags are the pairwise-disjoint single bits
1, 2, 4 and 8, so the bitwise-or of any subset of them determines that
subset uniquely. -/
theorem nsi_param_flags_disjoint_bits_injective :
    (NSIParamIsArray = 1 ∧ NSIParamPerFace = 2 ∧
     NSIParamPerVertex = 4 ∧ NSIParamInterpolateLinear = 8) ∧
    (NSIParamIsArray &&& NSIParamPerFace = 0 ∧
     NSIParamIsArray &&& NSIParamPerVertex = 0 ∧
     NSIParamIsArray &&& NSIParamInterpolateLinear = 0 ∧
     NSIParamPerFace &&& NSIParamPerVertex = 0 ∧
     NSIParamPerFace &&& NSIParamInterpolateLinear = 0 ∧
     NSIParamPerVertex &&& NSIParamInterpolateLinear = 0) ∧
    ∀ a b c d a2 b2 c2 d2 : Bool,
      paramFlagsOf a b c d = paramFlagsOf a2 b2 c2 d2 →
      a = a2 ∧ b = b2 ∧ c = c2 ∧ d = d2 := by
  decide

/-- C9 witness: the subset {IsArray, PerVertex} round-trips through its
flag word. -/
theorem nsi_param_flags_disjoint_bits_witness :
    true = true ∧ false = false ∧ true = true ∧ false = false :=
  nsi_param_flags_disjoint_bits_injective.2.2
    true false true false true false true false rfl

end NSI
